import Mathlib

/-!
Shallow embedding of the coffee-shop microservice core: the order service
(create order, status patch, payment-status patch, cancel) and the payment
service (create/resolve payment, refund), together with the notification and
payment-callback messages they emit.

Status fields are modelled as `String`, matching the source: the handlers set
them through `findByIdAndUpdate` / direct assignment with no transition guard,
so any string can be stored.  Money is modelled as `ℚ` (JS numbers in the
source).  Timestamps are abstract `Nat` ticks passed in by the caller.  Each
remote call that the source fires (payment trigger, payment-status callback,
notification) is modelled by a `Bool` delivery flag: the flag decides whether
the message arrives, and the embedding shows where the handler's persisted
state and HTTP response depend on it (only the refund path awaits its
callback inside the try block; every other call is fire-and-forget with a
`.catch` that logs and drops the error).
-/

deriving instance DecidableEq for Except

namespace CoffeeShop

/-- A catalog product as returned by the product service
(`GET /api/products/:id`). -/
structure Product where
  id : String
  name : String
  price : ℚ
  available : Bool
deriving Repr, DecidableEq

/-- One item of a create-order request body: `{productId, quantity}`. -/
structure ReqItem where
  productId : String
  quantity : Nat
deriving Repr, DecidableEq

/-- A persisted order line item: product id, display name, quantity and the
unit-price snapshot taken at validation time. -/
structure OrderItem where
  productId : String
  name : String
  quantity : Nat
  price : ℚ
deriving Repr, DecidableEq

/-- The Order document of the order service (`OrderSchema`). -/
structure Order where
  id : String
  userId : String
  items : List OrderItem
  totalAmount : ℚ
  status : String
  paymentStatus : String
  deliveryAddress : String
  specialInstructions : String
  createdAt : Nat
  updatedAt : Nat
deriving Repr, DecidableEq

/-- A message posted to the notification sink (`POST /api/notifications`). -/
structure Notification where
  userId : String
  message : String
  type : String
  orderId : String
deriving Repr, DecidableEq

/-- The body of the asynchronous payment trigger
(`POST /api/payments` issued after order creation). -/
structure PaymentRequest where
  orderId : String
  amount : ℚ
  userId : String
deriving Repr, DecidableEq

/-- The body of the payment-status callback
(`PATCH /api/orders/:id/payment`). -/
structure PaymentCallback where
  orderId : String
  paymentStatus : String
deriving Repr, DecidableEq

/-- The Payment document of the payment service (`PaymentSchema`). -/
structure Payment where
  id : String
  orderId : String
  userId : String
  amount : ℚ
  status : String
  paymentMethod : String
  transactionId : Option String
  failureReason : Option String
  createdAt : Nat
  completedAt : Option Nat
deriving Repr, DecidableEq

/-- Whether an `Except` response is a success (2xx) rather than an error. -/
def isOkE {ε α : Type} : Except ε α → Bool
  | .ok _ => true
  | .error _ => false

/-- JS `s.slice(-n)`: the last `n` characters of `s` (all of `s` when it is
shorter).  Used for the `order._id.toString().slice(-6)` fragment of
notification messages. -/
def sliceLast (n : Nat) (s : String) : String :=
  ⟨s.data.drop (s.data.length - n)⟩

/-- Whether one request item fails validation: unknown product id, or the
product's `available` flag is false. -/
def badItem (catalog : String → Option Product) (it : ReqItem) : Bool :=
  match catalog it.productId with
  | none => true
  | some p => !p.available

/-- The 400 error message the create-order loop produces for a failing item:
`Invalid product: <id>` on a failed lookup, `<name> is not available` on an
unavailable product. -/
def itemError (catalog : String → Option Product) (it : ReqItem) : String :=
  match catalog it.productId with
  | none => "Invalid product: " ++ it.productId
  | some p => p.name ++ " is not available"

/-- The validation loop of `POST /api/orders` (lines 58-82 of the order
service): walk the request items in order; on the first unknown or
unavailable product return its 400 error; otherwise snapshot name and price
into an `OrderItem` and accumulate `price * quantity` into the total. -/
def validateItems (catalog : String → Option Product) :
    List ReqItem → Except String (List OrderItem × ℚ)
  | [] => .ok ([], 0)
  | it :: rest =>
    match catalog it.productId with
    | none => .error ("Invalid product: " ++ it.productId)
    | some p =>
      if p.available then
        match validateItems catalog rest with
        | .error e => .error e
        | .ok (l, t) =>
          .ok ({ productId := p.id, name := p.name, quantity := it.quantity,
                 price := p.price } :: l,
               p.price * (it.quantity : ℚ) + t)
      else
        .error (p.name ++ " is not available")

/-- The observable outcome of `POST /api/orders`: the Order document written
to the store (if any), the HTTP response, and the payment trigger as
delivered to the payment service (if any; `none` both when creation aborted
and when the fire-and-forget trigger failed in flight). -/
structure CreateOut where
  persisted : Option Order
  response : Except String Order
  paymentDelivered : Option PaymentRequest
deriving Repr, DecidableEq

/-- `POST /api/orders` (lines 53-106 of the order service): validate every
item against the catalog; on any failure return 400 with nothing persisted
and no payment trigger; on success persist the Order with status `pending`,
paymentStatus `pending`, fire the payment trigger (best effort: `triggerOk`
says whether it arrived; its failure is caught and logged) and answer 201
with the order. -/
def createOrder (catalog : String → Option Product) (userId : String)
    (items : List ReqItem) (addr instr oid : String) (now : Nat)
    (triggerOk : Bool) : CreateOut :=
  match validateItems catalog items with
  | .error e => { persisted := none, response := .error e, paymentDelivered := none }
  | .ok (l, total) =>
    let o : Order :=
      { id := oid, userId := userId, items := l, totalAmount := total,
        status := "pending", paymentStatus := "pending",
        deliveryAddress := addr, specialInstructions := instr,
        createdAt := now, updatedAt := now }
    { persisted := some o, response := .ok o,
      paymentDelivered :=
        if triggerOk then
          some { orderId := oid, amount := total, userId := userId }
        else none }

/-- The observable outcome of an order mutation handler: the persisted Order,
the notifications it posted (attempted), the ones that actually arrived at
the notification sink, and the HTTP response. -/
structure MutOut where
  order : Order
  notifSent : List Notification
  notifDelivered : List Notification
  response : Except String Order
deriving Repr, DecidableEq

/-- `PATCH /api/orders/:id/status` (lines 142-169): overwrite `status` with
the requested value and refresh `updatedAt` (no guard), then post an
`order_update` notification to the owning user; the notification is
fire-and-forget (`notifyOk` says whether it arrived; failure is caught and
logged) and the handler answers 200 with the updated order either way. -/
def updateStatus (o : Order) (s : String) (now : Nat) (notifyOk : Bool) : MutOut :=
  let o' := { o with status := s, updatedAt := now }
  let n : Notification :=
    { userId := o'.userId,
      message := "Your order #" ++ sliceLast 6 o'.id ++ " is now " ++ s,
      type := "order_update", orderId := o'.id }
  { order := o', notifSent := [n],
    notifDelivered := if notifyOk then [n] else [],
    response := .ok o' }

/-- `PATCH /api/orders/:id/payment` (lines 172-204): overwrite
`paymentStatus` with the incoming value and refresh `updatedAt`
unconditionally; then, only when the incoming value is `completed` and the
order's lifecycle status is `pending`, additionally set status `confirmed`
and post a `payment_success` notification (fire-and-forget). -/
def updatePayment (o : Order) (ps : String) (now : Nat) (notifyOk : Bool) : MutOut :=
  let o1 := { o with paymentStatus := ps, updatedAt := now }
  if ps = "completed" ∧ o1.status = "pending" then
    let o2 := { o1 with status := "confirmed" }
    let n : Notification :=
      { userId := o2.userId,
        message := "Payment confirmed for order #" ++ sliceLast 6 o2.id,
        type := "payment_success", orderId := o2.id }
    { order := o2, notifSent := [n],
      notifDelivered := if notifyOk then [n] else [],
      response := .ok o2 }
  else
    { order := o1, notifSent := [], notifDelivered := [], response := .ok o1 }

/-- `POST /api/orders/:id/cancel` (lines 207-227): reject with 400 and no
mutation when the current status is `preparing`, `ready` or `completed`;
otherwise set status `cancelled`, refresh `updatedAt` and answer 200. -/
def cancelOrder (o : Order) (now : Nat) : MutOut :=
  if o.status ∈ ["preparing", "ready", "completed"] then
    { order := o, notifSent := [], notifDelivered := [],
      response := .error "Cannot cancel order in current status" }
  else
    let o' := { o with status := "cancelled", updatedAt := now }
    { order := o', notifSent := [], notifDelivered := [], response := .ok o' }

/-- The Payment document freshly persisted by `POST /api/payments`
(lines 160-172 of the payment service): status `processing`, no transaction
id, no failure reason, no completion time. -/
def newPayment (pid orderId userId : String) (amount : ℚ) (method : String)
    (now : Nat) : Payment :=
  { id := pid, orderId := orderId, userId := userId, amount := amount,
    status := "processing", paymentMethod := method,
    transactionId := none, failureReason := none,
    createdAt := now, completedAt := none }

/-- The delayed resolution body of `POST /api/payments` (the `setTimeout`
callback, lines 175-199): on success (`Math.random() > 0.05`, passed in as
`isSuccess`) set status `completed`, a fresh transaction id and the
completion time; on failure set status `failed` and the fixed failure
reason. -/
def resolvePayment (p : Payment) (isSuccess : Bool) (txn : String) (now : Nat) :
    Payment :=
  if isSuccess then
    { p with status := "completed", transactionId := some txn,
             completedAt := some now }
  else
    { p with status := "failed", failureReason := some "Insufficient funds" }

/-- The observable outcome of the delayed payment resolution: the persisted
Payment, the status callback it issued and the callback as delivered (the
whole `setTimeout` body sits in a try/catch that only logs, so a callback
failure never touches the already-saved Payment). -/
structure ResolveOut where
  payment : Payment
  callbackSent : Option PaymentCallback
  callbackDelivered : Option PaymentCallback
deriving Repr, DecidableEq

/-- Resolution followed by the payment-status callback to the order service
(`axios.patch .../payment` inside the `setTimeout` body): the Payment is
saved first, then the callback is attempted; its failure is caught and
logged. -/
def resolveAndCallback (p : Payment) (isSuccess : Bool) (txn : String)
    (now : Nat) (callbackOk : Bool) : ResolveOut :=
  let p' := resolvePayment p isSuccess txn now
  let cb : PaymentCallback := { orderId := p'.orderId, paymentStatus := p'.status }
  { payment := p', callbackSent := some cb,
    callbackDelivered := if callbackOk then some cb else none }

/-- The observable outcome of `POST /api/payments/:id/refund`: the persisted
Payment, the callback attempted/delivered, and the HTTP response. -/
structure RefundOut where
  payment : Payment
  callbackSent : Option PaymentCallback
  callbackDelivered : Option PaymentCallback
  response : Except String Payment
deriving Repr, DecidableEq

/-- `POST /api/payments/:id/refund` (lines 245-269 of the payment service):
reject with 400 and no mutation unless the current status is `completed`;
otherwise save the Payment as `refunded`, then `await` the refunded callback
to the order service.  The callback is awaited inside the handler's try
block, so when it fails (`callbackOk = false`) the handler's catch answers
400 even though the Payment was already saved as `refunded` (no rollback). -/
def refundPayment (p : Payment) (callbackOk : Bool) : RefundOut :=
  if p.status = "completed" then
    let p' := { p with status := "refunded" }
    let cb : PaymentCallback := { orderId := p'.orderId, paymentStatus := "refunded" }
    if callbackOk then
      { payment := p', callbackSent := some cb, callbackDelivered := some cb,
        response := .ok p' }
    else
      { payment := p', callbackSent := some cb, callbackDelivered := none,
        response := .error "callback delivery failed" }
  else
    { payment := p, callbackSent := none, callbackDelivered := none,
      response := .error "Can only refund completed payments" }

/-- The field/status coupling the payment record maintains: a transaction id
exactly in `completed` or `refunded`, a failure reason exactly in `failed`, a
completion time exactly when the resolution outcome was success (hence also
after a refund, which requires prior completion and does not clear it). -/
def paymentFieldsInvariant (p : Payment) : Prop :=
  (p.transactionId.isSome ↔ (p.status = "completed" ∨ p.status = "refunded")) ∧
  (p.failureReason.isSome ↔ p.status = "failed") ∧
  (p.completedAt.isSome ↔ (p.status = "completed" ∨ p.status = "refunded"))

/-- A sample pending order used by witnesses and counterexamples. -/
def o0 : Order :=
  { id := "ORDER01", userId := "u1", items := [], totalAmount := 0,
    status := "pending", paymentStatus := "pending",
    deliveryAddress := "12 Main St", specialInstructions := "",
    createdAt := 0, updatedAt := 0 }

/-- A sample order whose payment already completed. -/
def oPaid : Order :=
  { o0 with status := "confirmed", paymentStatus := "completed" }

/-- A sample completed payment. -/
def pCompleted : Payment :=
  { id := "PAY01", orderId := "ORDER01", userId := "u1", amount := 5,
    status := "completed", paymentMethod := "card",
    transactionId := some "TXN1", failureReason := none,
    createdAt := 0, completedAt := some 1 }

/-- A sample two-product catalog: a latte at 2.99 and a mocha that is not
available. -/
def catalog0 : String → Option Product := fun pid =>
  if pid = "latte" then
    some { id := "latte", name := "Latte", price := 299 / 100, available := true }
  else if pid = "mocha" then
    some { id := "mocha", name := "Mocha", price := 349 / 100, available := false }
  else
    none

/-!  Theorems settling the claims. -/

/-- Claim C1: on the payment callback, when the incoming status is
`completed` and the order's lifecycle status is currently `pending`, the
persisted order has paymentStatus `completed` and status `confirmed` and a
payment-confirmed notification is dispatched; for any other incoming status,
or when the order is past `pending`, only `paymentStatus` is overwritten and
the lifecycle status is left unchanged (with no notification). -/
theorem payment_callback_reconciliation (o : Order) (ps : String) (now : Nat)
    (nk : Bool) :
    (ps = "completed" → o.status = "pending" →
      (updatePayment o ps now nk).order.paymentStatus = "completed" ∧
      (updatePayment o ps now nk).order.status = "confirmed" ∧
      (updatePayment o ps now nk).notifSent =
        [{ userId := o.userId,
           message := "Payment confirmed for order #" ++ sliceLast 6 o.id,
           type := "payment_success", orderId := o.id }]) ∧
    (¬ (ps = "completed" ∧ o.status = "pending") →
      (updatePayment o ps now nk).order.paymentStatus = ps ∧
      (updatePayment o ps now nk).order.status = o.status ∧
      (updatePayment o ps now nk).notifSent = []) := by
  constructor
  · intro h1 h2
    subst h1
    simp [updatePayment, h2]
  · intro h
    have hcond : ¬ (ps = "completed" ∧
        ({ o with paymentStatus := ps, updatedAt := now } : Order).status = "pending") := h
    simp only [updatePayment, if_neg hcond]
    exact ⟨trivial, trivial, trivial⟩

/-- Witness for C1 at concrete inputs: a completed callback on a pending
order confirms it; a failed callback on a confirmed order touches only
paymentStatus. -/
theorem payment_callback_reconciliation_witness :
    (updatePayment o0 "completed" 7 true).order.status = "confirmed" ∧
    (updatePayment oPaid "failed" 7 true).order.paymentStatus = "failed" ∧
    (updatePayment oPaid "failed" 7 true).order.status = oPaid.status :=
  ⟨((payment_callback_reconciliation o0 "completed" 7 true).1 rfl rfl).2.1,
   ((payment_callback_reconciliation oPaid "failed" 7 true).2 (by decide)).1,
   ((payment_callback_reconciliation oPaid "failed" 7 true).2 (by decide)).2.1⟩

/-- Claim C4: cancellation is rejected with an invalid-state error and no
mutation when the current status is `preparing`, `ready` or `completed`;
from `pending` or `confirmed` it succeeds, setting status `cancelled` and
refreshing `updatedAt`. -/
theorem cancel_state_guard (o : Order) (now : Nat) :
    ((o.status = "preparing" ∨ o.status = "ready" ∨ o.status = "completed") →
      (cancelOrder o now).response = .error "Cannot cancel order in current status" ∧
      (cancelOrder o now).order = o) ∧
    ((o.status = "pending" ∨ o.status = "confirmed") →
      (cancelOrder o now).order = { o with status := "cancelled", updatedAt := now } ∧
      (cancelOrder o now).response =
        .ok { o with status := "cancelled", updatedAt := now }) := by
  constructor
  · intro h
    rcases h with h | h | h <;> simp [cancelOrder, h]
  · intro h
    rcases h with h | h <;> simp [cancelOrder, h]

/-- Witness for C4 at concrete inputs: a preparing order cannot be
cancelled; a pending order can. -/
theorem cancel_state_guard_witness :
    (cancelOrder { o0 with status := "preparing" } 4).order =
      { o0 with status := "preparing" } ∧
    (cancelOrder o0 4).order.status = "cancelled" :=
  ⟨((cancel_state_guard { o0 with status := "preparing" } 4).1 (Or.inl rfl)).2,
   by rw [((cancel_state_guard o0 4).2 (Or.inl rfl)).1]⟩

/-- Claim C10: `cancelled` is not among the statuses the cancel guard
rejects, so cancelling an already-cancelled order succeeds again, leaves the
status at `cancelled` and refreshes `updatedAt`. -/
theorem cancel_repeatable_on_cancelled (o : Order) (now : Nat)
    (h : o.status = "cancelled") :
    (cancelOrder o now).response =
      .ok { o with status := "cancelled", updatedAt := now } ∧
    (cancelOrder o now).order.status = "cancelled" ∧
    (cancelOrder o now).order.updatedAt = now := by
  simp [cancelOrder, h]

/-- Witness for C10: cancelling a concrete cancelled order succeeds and
refreshes `updatedAt`. -/
theorem cancel_repeatable_on_cancelled_witness :
    (cancelOrder { o0 with status := "cancelled" } 5).response =
      .ok { o0 with status := "cancelled", updatedAt := 5 } ∧
    (cancelOrder { o0 with status := "cancelled" } 5).order.updatedAt = 5 :=
  ⟨(cancel_repeatable_on_cancelled { o0 with status := "cancelled" } 5 rfl).1,
   (cancel_repeatable_on_cancelled { o0 with status := "cancelled" } 5 rfl).2.2⟩

/-- Claim C5: refund succeeds exactly on a `completed` payment: it persists
status `refunded` and sends the `refunded` callback, and a second refund
attempt on the result fails with the invalid-state error and no further
mutation; refunding a payment in any other status errors and leaves the
record unmodified. -/
theorem refund_guard (p : Payment) (ck : Bool) :
    (p.status = "completed" →
      (refundPayment p ck).payment = { p with status := "refunded" } ∧
      (refundPayment p ck).callbackSent =
        some { orderId := p.orderId, paymentStatus := "refunded" } ∧
      (ck = true →
        (refundPayment p ck).response = .ok { p with status := "refunded" }) ∧
      (refundPayment (refundPayment p ck).payment ck).response =
        .error "Can only refund completed payments" ∧
      (refundPayment (refundPayment p ck).payment ck).payment =
        (refundPayment p ck).payment) ∧
    (p.status ≠ "completed" →
      (refundPayment p ck).payment = p ∧
      (refundPayment p ck).callbackSent = none ∧
      (refundPayment p ck).response = .error "Can only refund completed payments") := by
  constructor
  · intro h
    cases ck <;> simp [refundPayment, h]
  · intro h
    simp [refundPayment, h]

/-- Witness for C5 at concrete inputs: refunding a completed payment yields
`refunded`; refunding a processing payment leaves it unchanged. -/
theorem refund_guard_witness :
    (refundPayment pCompleted true).payment.status = "refunded" ∧
    (refundPayment { pCompleted with status := "processing" } true).payment =
      { pCompleted with status := "processing" } ∧
    (refundPayment pCompleted true).response = .ok { pCompleted with status := "refunded" } :=
  ⟨by rw [((refund_guard pCompleted true).1 rfl).1],
   ((refund_guard { pCompleted with status := "processing" } true).2 (by decide)).1,
   ((refund_guard pCompleted true).1 rfl).2.2.1 rfl⟩

/-- Claim C6: the delayed resolution of a freshly created payment reaches
`completed` exactly when the simulated draw succeeds and `failed` exactly
when it fails (one terminal outcome, never both); afterwards — and still
after a subsequent refund, which requires completion and clears nothing —
`transactionId` is present iff the status is `completed` or `refunded`,
`failureReason` iff the status is `failed`, and `completedAt` iff the
resolution outcome was success. -/
theorem payment_resolution_invariant (pid oid uid meth txn : String) (amt : ℚ)
    (n0 n1 : Nat) (b ck : Bool) :
    ((resolvePayment (newPayment pid oid uid amt meth n0) b txn n1).status =
        "completed" ↔ b = true) ∧
    ((resolvePayment (newPayment pid oid uid amt meth n0) b txn n1).status =
        "failed" ↔ b = false) ∧
    paymentFieldsInvariant
      (resolvePayment (newPayment pid oid uid amt meth n0) b txn n1) ∧
    paymentFieldsInvariant
      (refundPayment
        (resolvePayment (newPayment pid oid uid amt meth n0) b txn n1) ck).payment := by
  cases b <;> cases ck <;>
    simp [resolvePayment, newPayment, refundPayment, paymentFieldsInvariant]

/-- Claim C9: the direct status update overwrites `status` with the
requested value unconditionally, refreshes `updatedAt`, answers 200 with the
updated order, and always dispatches an `order_update` notification to the
owning user whose message names the new status. -/
theorem status_update_unconditional (o : Order) (s : String) (now : Nat)
    (nk : Bool) :
    (updateStatus o s now nk).order = { o with status := s, updatedAt := now } ∧
    (updateStatus o s now nk).response =
      .ok { o with status := s, updatedAt := now } ∧
    (updateStatus o s now nk).notifSent =
      [{ userId := o.userId,
         message := "Your order #" ++ sliceLast 6 o.id ++ " is now " ++ s,
         type := "order_update", orderId := o.id }] := by
  simp [updateStatus]

/-- Helper: when some request item is invalid, the validation loop stops at
an invalid item of the list and returns exactly its 400 message. -/
theorem validateItems_error_of_bad (catalog : String → Option Product) :
    ∀ items : List ReqItem, (∃ it ∈ items, badItem catalog it = true) →
      ∃ it ∈ items, badItem catalog it = true ∧
        validateItems catalog items = .error (itemError catalog it) := by
  intro items
  induction items with
  | nil => rintro ⟨it, hmem, -⟩; cases hmem
  | cons it rest ih =>
    rintro ⟨jt, hmem, hbad⟩
    cases hc : catalog it.productId with
    | none =>
      refine ⟨it, List.mem_cons_self it rest, ?_, ?_⟩
      · simp [badItem, hc]
      · simp [validateItems, hc, itemError]
    | some p =>
      by_cases hav : p.available
      · have hrest : ∃ kt ∈ rest, badItem catalog kt = true := by
          rcases List.mem_cons.mp hmem with heq | hin
          · subst heq
            exfalso
            simp [badItem, hc, hav] at hbad
          · exact ⟨jt, hin, hbad⟩
        obtain ⟨kt, hk, hkb, hke⟩ := ih hrest
        refine ⟨kt, List.mem_cons_of_mem it hk, hkb, ?_⟩
        simp [validateItems, hc, hav, hke]
      · refine ⟨it, List.mem_cons_self it rest, ?_, ?_⟩
        · simp [badItem, hc, hav]
        · simp [validateItems, hc, hav, itemError]

/-- Claim C2: when any request item has an unknown or unavailable product,
order creation aborts: nothing is persisted, no payment trigger is issued,
and the 400 response names the offending product (its id on a failed lookup,
its name when unavailable).  Validation runs before any persistence or
payment side effect, so the abort leaves no partial state. -/
theorem create_aborts_on_invalid_item (catalog : String → Option Product)
    (uid : String) (items : List ReqItem) (addr instr oid : String)
    (now : Nat) (tk : Bool)
    (h : ∃ it ∈ items, badItem catalog it = true) :
    (createOrder catalog uid items addr instr oid now tk).persisted = none ∧
    (createOrder catalog uid items addr instr oid now tk).paymentDelivered = none ∧
    ∃ it ∈ items, badItem catalog it = true ∧
      (createOrder catalog uid items addr instr oid now tk).response =
        .error (itemError catalog it) := by
  obtain ⟨it, hmem, hbad, herr⟩ := validateItems_error_of_bad catalog items h
  exact ⟨by simp [createOrder, herr], by simp [createOrder, herr],
         it, hmem, hbad, by simp [createOrder, herr]⟩

/-- Witness for C2: an order containing the unavailable mocha persists
nothing and triggers no payment. -/
theorem create_aborts_on_invalid_item_witness :
    (createOrder catalog0 "u1" [⟨"latte", 1⟩, ⟨"mocha", 2⟩] "12 Main St" "" "o2"
       0 true).persisted = none ∧
    (createOrder catalog0 "u1" [⟨"latte", 1⟩, ⟨"mocha", 2⟩] "12 Main St" "" "o2"
       0 true).paymentDelivered = none :=
  ⟨(create_aborts_on_invalid_item catalog0 "u1" [⟨"latte", 1⟩, ⟨"mocha", 2⟩]
      "12 Main St" "" "o2" 0 true ⟨⟨"mocha", 2⟩, by decide, by decide⟩).1,
   (create_aborts_on_invalid_item catalog0 "u1" [⟨"latte", 1⟩, ⟨"mocha", 2⟩]
      "12 Main St" "" "o2" 0 true ⟨⟨"mocha", 2⟩, by decide, by decide⟩).2.1⟩

/-- Helper: a successful validation's accumulated total is the sum over the
snapshotted line items of quantity times the snapshot price. -/
theorem validateItems_total (catalog : String → Option Product) :
    ∀ (items : List ReqItem) (l : List OrderItem) (t : ℚ),
      validateItems catalog items = .ok (l, t) →
      t = (l.map fun it => it.price * (it.quantity : ℚ)).sum := by
  intro items
  induction items with
  | nil =>
    intro l t h
    simp [validateItems] at h
    obtain ⟨hl, ht⟩ := h
    subst hl
    subst ht
    simp
  | cons it rest ih =>
    intro l t h
    cases hc : catalog it.productId with
    | none => simp [validateItems, hc] at h
    | some p =>
      by_cases hav : p.available
      · cases hr : validateItems catalog rest with
        | error e => simp [validateItems, hc, hav, hr] at h
        | ok pair =>
          obtain ⟨l', t'⟩ := pair
          have ht' := ih l' t' hr
          simp [validateItems, hc, hav, hr] at h
          obtain ⟨hl, ht⟩ := h
          subst hl
          subst ht
          simp [ht']
      · simp [validateItems, hc, hav] at h

/-- The order persisted by a sample successful creation (one latte at 2.99,
quantity 2), used by the C3 witness. -/
def oLatte : Order :=
  ((createOrder catalog0 "u1" [⟨"latte", 2⟩] "12 Main St" "" "o3" 0
      true).persisted).getD o0

/-- Claim C3: a successfully created order's `totalAmount` equals the sum
over its line items of quantity times the unit-price snapshot taken at
validation time, and neither `totalAmount` nor the line items are changed by
a later status update, payment callback or cancellation; none of those
operations consults the catalog, so later catalog price changes cannot
affect the persisted total. -/
theorem total_amount_correct_and_immutable (catalog : String → Option Product)
    (uid : String) (items : List ReqItem) (addr instr oid : String)
    (now : Nat) (tk : Bool) (o : Order)
    (h : (createOrder catalog uid items addr instr oid now tk).response = .ok o) :
    o.totalAmount = (o.items.map fun it => it.price * (it.quantity : ℚ)).sum ∧
    (∀ s n2 nk, (updateStatus o s n2 nk).order.totalAmount = o.totalAmount ∧
                (updateStatus o s n2 nk).order.items = o.items) ∧
    (∀ ps n2 nk, (updatePayment o ps n2 nk).order.totalAmount = o.totalAmount ∧
                 (updatePayment o ps n2 nk).order.items = o.items) ∧
    (∀ n2, (cancelOrder o n2).order.totalAmount = o.totalAmount ∧
           (cancelOrder o n2).order.items = o.items) := by
  refine ⟨?_, ?_, ?_, ?_⟩
  · cases hv : validateItems catalog items with
    | error e => simp [createOrder, hv] at h
    | ok pair =>
      obtain ⟨l, t⟩ := pair
      have ht := validateItems_total catalog items l t hv
      simp [createOrder, hv] at h
      subst h
      simpa using ht
  · intro s n2 nk
    simp [updateStatus]
  · intro ps n2 nk
    by_cases hcond : ps = "completed" ∧
        ({ o with paymentStatus := ps, updatedAt := n2 } : Order).status = "pending"
    · simp [updatePayment, if_pos hcond]
    · simp [updatePayment, if_neg hcond]
  · intro n2
    constructor <;> (simp only [cancelOrder]; split <;> simp)

/-- Witness for C3 at a concrete creation: the persisted latte order's total
equals the snapshot sum and survives a status update. -/
theorem total_amount_correct_and_immutable_witness :
    oLatte.totalAmount =
      (oLatte.items.map fun it => it.price * (it.quantity : ℚ)).sum ∧
    (updateStatus oLatte "preparing" 9 true).order.totalAmount =
      oLatte.totalAmount :=
  ⟨(total_amount_correct_and_immutable catalog0 "u1" [⟨"latte", 2⟩]
      "12 Main St" "" "o3" 0 true oLatte rfl).1,
   ((total_amount_correct_and_immutable catalog0 "u1" [⟨"latte", 2⟩]
      "12 Main St" "" "o3" 0 true oLatte rfl).2.1 "preparing" 9 true).1⟩

/-- Claim C7 counterexample: the payment-callback endpoint applies no
transition guard, so an order whose paymentStatus is already `completed`
moves back to `pending` when a callback carries `pending` — an edge outside
the claimed set `pending → completed | failed`, `completed → refunded`. -/
theorem paymentStatus_guard_missing :
    oPaid.paymentStatus = "completed" ∧
    (updatePayment oPaid "pending" 9 true).order.paymentStatus = "pending" := by
  decide

/-- Claim C7 amended: the callback endpoint overwrites `paymentStatus` with
the incoming value unconditionally (there is no transition guard); the
claimed edges are exactly the callbacks the payment simulator itself issues —
a resolution callback carries `completed` or `failed`, and a refund callback
carries `refunded` and is issued only for a payment whose status was
`completed`. -/
theorem paymentStatus_overwrite_and_simulator_edges (o : Order) (ps : String)
    (now : Nat) (nk : Bool) (p q : Payment) (b ck ck' : Bool) (txn : String)
    (n1 : Nat) (cb cb' : PaymentCallback) :
    ((updatePayment o ps now nk).order.paymentStatus = ps) ∧
    ((resolveAndCallback p b txn n1 ck).callbackSent = some cb →
      cb.paymentStatus = "completed" ∨ cb.paymentStatus = "failed") ∧
    ((refundPayment q ck').callbackSent = some cb' →
      cb'.paymentStatus = "refunded" ∧ q.status = "completed") := by
  refine ⟨?_, ?_, ?_⟩
  · by_cases hcond : ps = "completed" ∧
        ({ o with paymentStatus := ps, updatedAt := now } : Order).status = "pending"
    · simp [updatePayment, if_pos hcond]
    · simp [updatePayment, if_neg hcond]
  · intro h
    cases b <;>
      simp [resolveAndCallback, resolvePayment] at h <;>
      simp [← h]
  · intro h
    by_cases hq : q.status = "completed"
    · refine ⟨?_, hq⟩
      cases ck' <;> simp [refundPayment, hq] at h <;> simp [← h]
    · simp [refundPayment, hq] at h

/-- Witness for C7 amended at concrete inputs: a `failed` callback value is
stored verbatim, a successful resolution callback carries `completed`, and a
refund callback from a completed payment carries `refunded`. -/
theorem paymentStatus_overwrite_and_simulator_edges_witness :
    (updatePayment o0 "failed" 3 true).order.paymentStatus = "failed" ∧
    (({ orderId := "ORDER01", paymentStatus := "completed" } :
        PaymentCallback).paymentStatus = "completed" ∨
     ({ orderId := "ORDER01", paymentStatus := "completed" } :
        PaymentCallback).paymentStatus = "failed") ∧
    ({ orderId := "ORDER01", paymentStatus := "refunded" } :
        PaymentCallback).paymentStatus = "refunded" ∧
    pCompleted.status = "completed" :=
  ⟨(paymentStatus_overwrite_and_simulator_edges o0 "failed" 3 true
      (newPayment "PAY02" "ORDER01" "u1" 5 "card" 0) pCompleted true true true
      "TXN9" 4 { orderId := "ORDER01", paymentStatus := "completed" }
      { orderId := "ORDER01", paymentStatus := "refunded" }).1,
   (paymentStatus_overwrite_and_simulator_edges o0 "failed" 3 true
      (newPayment "PAY02" "ORDER01" "u1" 5 "card" 0) pCompleted true true true
      "TXN9" 4 { orderId := "ORDER01", paymentStatus := "completed" }
      { orderId := "ORDER01", paymentStatus := "refunded" }).2.1 (by decide),
   (paymentStatus_overwrite_and_simulator_edges o0 "failed" 3 true
      (newPayment "PAY02" "ORDER01" "u1" 5 "card" 0) pCompleted true true true
      "TXN9" 4 { orderId := "ORDER01", paymentStatus := "completed" }
      { orderId := "ORDER01", paymentStatus := "refunded" }).2.2 (by decide)⟩

/-- Claim C8 counterexample: the refund handler awaits its callback inside
the try block, so when the callback fails the already-saved `refunded`
Payment is kept (no rollback) but the handler answers an error, not
success — the failure is not swallowed. -/
theorem refund_callback_failure_surfaces :
    (refundPayment pCompleted false).payment.status = "refunded" ∧
    isOkE (refundPayment pCompleted false).response = false := by
  decide

/-- Claim C8 amended: for the payment trigger after order creation, the
resolution callback and the notification calls, a delivery failure changes
neither the persisted record nor the HTTP response (the source catches and
logs it); the refund callback is the one exception: it is awaited in the
request path, so its failure surfaces as an error response to the refund
caller, although the Payment has already been persisted as `refunded` and is
not rolled back. -/
theorem async_failure_handling (catalog : String → Option Product)
    (uid : String) (items : List ReqItem) (addr instr oid : String)
    (now : Nat) (o : Order) (s ps : String) (p q : Payment) (b : Bool)
    (txn : String) (n1 : Nat) :
    ((createOrder catalog uid items addr instr oid now true).persisted =
       (createOrder catalog uid items addr instr oid now false).persisted ∧
     (createOrder catalog uid items addr instr oid now true).response =
       (createOrder catalog uid items addr instr oid now false).response) ∧
    ((updateStatus o s now true).order = (updateStatus o s now false).order ∧
     (updateStatus o s now true).response = (updateStatus o s now false).response) ∧
    ((updatePayment o ps now true).order = (updatePayment o ps now false).order ∧
     (updatePayment o ps now true).response = (updatePayment o ps now false).response) ∧
    ((resolveAndCallback p b txn n1 true).payment =
       (resolveAndCallback p b txn n1 false).payment) ∧
    (q.status = "completed" →
      (refundPayment q false).payment = { q with status := "refunded" } ∧
      isOkE (refundPayment q false).response = false) := by
  refine ⟨?_, ?_, ?_, ?_, ?_⟩
  · cases hv : validateItems catalog items with
    | error e => simp [createOrder, hv]
    | ok pair => simp [createOrder, hv]
  · simp [updateStatus]
  · by_cases hcond : ps = "completed" ∧
        ({ o with paymentStatus := ps, updatedAt := now } : Order).status = "pending"
    · simp [updatePayment, if_pos hcond]
    · simp [updatePayment, if_neg hcond]
  · simp [resolveAndCallback]
  · intro hq
    simp [refundPayment, hq, isOkE]

/-- Witness for C8 amended at concrete inputs, exercising the refund branch
on a completed payment with a failing callback. -/
theorem async_failure_handling_witness :
    (refundPayment pCompleted false).payment =
      { pCompleted with status := "refunded" } ∧
    isOkE (refundPayment pCompleted false).response = false :=
  (async_failure_handling catalog0 "u1" [] "12 Main St" "" "o9" 0 o0 "ready"
     "failed" pCompleted pCompleted true "TXN9" 1).2.2.2.2 rfl

end CoffeeShop
